import Mathlib

/-!
Verification of the pivot-table backend (`src/backend/pivot_api.py`): a shallow
embedding of its data model, query compiler, materializer, cache and drill
controller, together with theorems settling the specification claims.

Conventions of the embedding:
* Python `Any` values carried by filters and data-frame cells are modelled by
  `PyValue` (JSON-like scalars, lists of scalars, string-keyed dicts of
  scalars), which covers every value shape the API accepts.
* Machine strings are Lean `String`; `hashlib.md5(s.encode()).hexdigest()` is
  modelled by `md5hex`, a full implementation of RFC 1321 MD5 over the byte
  list of the string (the serialized requests are ASCII, where
  `String.toList.map Char.toNat` is exactly the UTF-8 encoding).
* The process-global dict `pivot_cache` is modelled by explicit state passing:
  each operation takes the cache before and returns the cache after.
* `conn.execute(query).fetchdf()` is modelled by an oracle
  `exec : String → Except String DataFrame`; exceptions raised by the engine
  are `Except.error`.
-/

/-- Scalar component of a Python/JSON value: string, integer or `None`. -/
inductive PyScalar where
  | s (v : String)
  | i (v : Int)
  | none
deriving DecidableEq

/-- Model of the Python `Any` values the API carries in filters and cells:
scalars, lists of scalars (for `in`/`notIn`) and string-keyed dicts of
scalars (for `between`). -/
inductive PyValue where
  | s (v : String)
  | i (v : Int)
  | list (vs : List PyScalar)
  | dict (kvs : List (String × PyScalar))
  | none
deriving DecidableEq

/-- Python `str()` of a scalar: strings unquoted, `None` rendered literally. -/
def pyScalarStr : PyScalar → String
  | PyScalar.s v => v
  | PyScalar.i v => toString v
  | PyScalar.none => "None"

/-- Python `repr()` of a scalar, as used by `str()` on a list. -/
def pyScalarRepr : PyScalar → String
  | PyScalar.s v => "\x27" ++ v ++ "\x27"
  | PyScalar.i v => toString v
  | PyScalar.none => "None"

/-- Python `str()` of a `PyValue` (used when a value is interpolated into an
f-string by the filter compiler or the materializer). -/
def pyStr : PyValue → String
  | PyValue.s v => v
  | PyValue.i v => toString v
  | PyValue.list vs => "[" ++ String.intercalate (", ") (vs.map pyScalarRepr) ++ "]"
  | PyValue.dict kvs =>
      "\x7b" ++ String.intercalate (", ")
        (kvs.map (fun kv => "\x27" ++ kv.1 ++ "\x27: " ++ pyScalarRepr kv.2)) ++ "\x7d"
  | PyValue.none => "None"

/-- Python `dict.get`, returning `None` (as a scalar) when the key is absent. -/
def dictGet (kvs : List (String × PyScalar)) (k : String) : PyScalar :=
  match kvs.find? (fun kv => kv.1 = k) with
  | Option.some kv => kv.2
  | Option.none => PyScalar.none

/-- Mirror of `PivotField` (pydantic model). -/
structure PivotField where
  id : String
  name : String
  dataType : String
  format : Option String := Option.none
deriving DecidableEq

/-- Mirror of `PivotValueField`. -/
structure PivotValueField where
  field : PivotField
  aggregation : String
  format : Option String := Option.none
  displayName : Option String := Option.none
deriving DecidableEq

/-- Mirror of `PivotFilter`. -/
structure PivotFilter where
  field : PivotField
  operator : String
  value : PyValue
  enabled : Bool := true
deriving DecidableEq

/-- Mirror of `PivotConfiguration`. -/
structure PivotConfiguration where
  rows : List PivotField
  columns : List PivotField
  values : List PivotValueField
  filters : List PivotFilter := []
  showSubtotals : Bool := false
  showGrandTotals : Bool := false
  maxRows : Option Nat := Option.none
  maxColumns : Option Nat := Option.none
deriving DecidableEq

/-- Mirror of `PivotRequest` (`page` modelled as an association list). -/
structure PivotRequest where
  dataset : String
  configuration : PivotConfiguration
  page : Option (List (String × Int)) := Option.none
  expandedPaths : List (List String) := []
  cacheKey : Option String := Option.none
deriving DecidableEq

/-- Mirror of `PivotCell`. -/
structure PivotCell where
  value : PyValue
  formattedValue : String
  type : String
  level : Option Nat := Option.none
  isExpandable : Bool := false
  isExpanded : Bool := false
  path : List String := []
  originalRows : List Nat := []
deriving DecidableEq

/-- Mirror of `PivotHeader`. -/
structure PivotHeader where
  label : String
  level : Nat
  span : Nat
  path : List String
  field : Option PivotField := Option.none
  isExpandable : Bool := false
  isExpanded : Bool := false
deriving DecidableEq

/-- Mirror of `PivotStructure`. -/
structure PivotStructure where
  matrix : List (List PivotCell)
  rowHeaders : List (List PivotHeader)
  columnHeaders : List (List PivotHeader)
  rowCount : Nat
  columnCount : Nat
  totalRows : Nat
  totalColumns : Nat
deriving DecidableEq

/-- The metadata dict attached to a `PivotResponse` by `compute_pivot`. -/
structure PivotMetadata where
  totalDataRows : Nat
  computationTime : Nat
  cacheKey : String
  timestamp : Nat
deriving DecidableEq

/-- Mirror of `PivotResponse` (the `structure` field is named `struct`
because `structure` is a Lean keyword). -/
structure PivotResponse where
  struct : PivotStructure
  metadata : PivotMetadata
  hasMore : Bool := false
  error : Option String := Option.none
deriving DecidableEq

/-- Mirror of `PivotDrillRequest`. -/
structure PivotDrillRequest where
  cacheKey : String
  path : List String
  action : String
deriving DecidableEq

/-- One entry of `pivot_cache`: the dict
`\x7b'structure': ..., 'timestamp': ..., 'request': ...\x7d`. -/
structure CacheEntry where
  struct : PivotStructure
  timestamp : Nat
  request : PivotRequest
deriving DecidableEq

/-- The global `pivot_cache` dict, as an insertion-ordered association list
(Python dicts preserve insertion order; assignment to an existing key keeps
its position). -/
abbrev Cache := List (String × CacheEntry)

/-- Key membership `k in d` of the association-list dict. -/
def dictHasKey : Cache → String → Bool
  | [], _ => false
  | p :: rest, k => p.1 = k || dictHasKey rest k

/-- Python dict assignment `d[k] = v`: overwrite in place when the key is
present, append otherwise. -/
def dictSet (c : Cache) (k : String) (v : CacheEntry) : Cache :=
  if dictHasKey c k then c.map (fun p => if p.1 = k then (k, v) else p)
  else c ++ [(k, v)]

/-- Python dict lookup `d[k]` (first — and only — binding of the key). -/
def dictFind : Cache → String → Option CacheEntry
  | [], _ => Option.none
  | p :: rest, k => if p.1 = k then Option.some p.2 else dictFind rest k

/-! ### MD5 (RFC 1321), used by `_generate_cache_key` via `hashlib.md5` -/

/-- Truncation to an unsigned 32-bit word. -/
def u32 (x : Nat) : Nat := x % 4294967296

/-- Left rotation of a 32-bit word. -/
def rotl32 (x n : Nat) : Nat := u32 (x <<< n) ||| (x >>> (32 - n))

/-- The 64 MD5 sine-table constants. -/
def md5K : List Nat :=
  [0xd76aa478, 0xe8c7b756, 0x242070db, 0xc1bdceee,
   0xf57c0faf, 0x4787c62a, 0xa8304613, 0xfd469501,
   0x698098d8, 0x8b44f7af, 0xffff5bb1, 0x895cd7be,
   0x6b901122, 0xfd987193, 0xa679438e, 0x49b40821,
   0xf61e2562, 0xc040b340, 0x265e5a51, 0xe9b6c7aa,
   0xd62f105d, 0x02441453, 0xd8a1e681, 0xe7d3fbc8,
   0x21e1cde6, 0xc33707d6, 0xf4d50d87, 0x455a14ed,
   0xa9e3e905, 0xfcefa3f8, 0x676f02d9, 0x8d2a4c8a,
   0xfffa3942, 0x8771f681, 0x6d9d6122, 0xfde5380c,
   0xa4beea44, 0x4bdecfa9, 0xf6bb4b60, 0xbebfbc70,
   0x289b7ec6, 0xeaa127fa, 0xd4ef3085, 0x04881d05,
   0xd9d4d039, 0xe6db99e5, 0x1fa27cf8, 0xc4ac5665,
   0xf4292244, 0x432aff97, 0xab9423a7, 0xfc93a039,
   0x655b59c3, 0x8f0ccc92, 0xffeff47d, 0x85845dd1,
   0x6fa87e4f, 0xfe2ce6e0, 0xa3014314, 0x4e0811a1,
   0xf7537e82, 0xbd3af235, 0x2ad7d2bb, 0xeb86d391]

/-- The 64 MD5 per-round shift amounts. -/
def md5S : List Nat :=
  [7, 12, 17, 22, 7, 12, 17, 22, 7, 12, 17, 22, 7, 12, 17, 22,
   5, 9, 14, 20, 5, 9, 14, 20, 5, 9, 14, 20, 5, 9, 14, 20,
   4, 11, 16, 23, 4, 11, 16, 23, 4, 11, 16, 23, 4, 11, 16, 23,
   6, 10, 15, 21, 6, 10, 15, 21, 6, 10, 15, 21, 6, 10, 15, 21]

/-- One MD5 operation on the state `(A, B, C, D)` with message words `M`. -/
def md5round (M : List Nat) (st : Nat × Nat × Nat × Nat) (i : Nat) :
    Nat × Nat × Nat × Nat :=
  match st with
  | (A, B, C, D) =>
    let fg : Nat × Nat :=
      if i < 16 then ((B &&& C) ||| ((4294967295 ^^^ B) &&& D), i)
      else if i < 32 then ((D &&& B) ||| ((4294967295 ^^^ D) &&& C), (5 * i + 1) % 16)
      else if i < 48 then (B ^^^ C ^^^ D, (3 * i + 5) % 16)
      else (C ^^^ (B ||| (4294967295 ^^^ D)), (7 * i) % 16)
    let f := u32 (fg.1 + A + md5K.getD i 0 + M.getD fg.2 0)
    (D, u32 (B + rotl32 f (md5S.getD i 0)), B, C)

/-- Decompose a 64-byte chunk into sixteen little-endian 32-bit words. -/
def words16 : List Nat → List Nat
  | b0 :: b1 :: b2 :: b3 :: rest =>
      (b0 + 256 * b1 + 65536 * b2 + 16777216 * b3) :: words16 rest
  | _ => []

/-- Process one 64-byte chunk, adding the round result into the state. -/
def md5chunk (st0 : Nat × Nat × Nat × Nat) (chunk : List Nat) :
    Nat × Nat × Nat × Nat :=
  let M := words16 chunk
  match st0, (List.range 64).foldl (md5round M) st0 with
  | (a0, b0, c0, d0), (A, B, C, D) =>
      (u32 (a0 + A), u32 (b0 + B), u32 (c0 + C), u32 (d0 + D))

/-- Accumulator for `chunks64`: `acc` holds the current partial chunk in
reverse, `k` its length. Structural recursion so the kernel can evaluate it. -/
def chunksAux : List Nat → List Nat → Nat → List (List Nat)
  | [], acc, _ => if acc.isEmpty then [] else [acc.reverse]
  | b :: rest, acc, k =>
      if k = 63 then (acc.reverse ++ [b]) :: chunksAux rest [] 0
      else chunksAux rest (b :: acc) (k + 1)

/-- Split a byte list into 64-byte chunks. -/
def chunks64 (l : List Nat) : List (List Nat) := chunksAux l [] 0

/-- `n` little-endian bytes of `x`. -/
def leBytes : Nat → Nat → List Nat
  | 0, _ => []
  | n + 1, x => (x % 256) :: leBytes n (x / 256)

/-- MD5 padding: `0x80`, zeros to 56 mod 64, then the 64-bit bit length. -/
def md5pad (msg : List Nat) : List Nat :=
  msg ++ [128] ++ List.replicate ((119 - msg.length % 64) % 64) 0
    ++ leBytes 8 (msg.length * 8)

/-- MD5 of a byte list, as the four 32-bit state words. -/
def md5bytes (msg : List Nat) : Nat × Nat × Nat × Nat :=
  (chunks64 (md5pad msg)).foldl md5chunk
    (0x67452301, 0xefcdab89, 0x98badcfe, 0x10325476)

/-- Lower-case hexadecimal digit. -/
def hexDigit (n : Nat) : Char :=
  if n < 10 then Char.ofNat (48 + n) else Char.ofNat (87 + n)

/-- Two-digit hex of a byte. -/
def byteHex (b : Nat) : String :=
  String.mk [hexDigit (b / 16 % 16), hexDigit (b % 16)]

/-- Hex of a 32-bit word rendered little-endian byte-first, as `hexdigest`
does. -/
def wordHexLE (w : Nat) : String :=
  byteHex (w % 256) ++ byteHex (w / 256 % 256) ++ byteHex (w / 65536 % 256)
    ++ byteHex (w / 16777216 % 256)

/-- Byte list of an ASCII string (its UTF-8 encoding). -/
def strBytes (s : String) : List Nat := s.toList.map Char.toNat

/-- Model of `hashlib.md5(s.encode()).hexdigest()`. -/
def md5hex (s : String) : String :=
  match md5bytes (strBytes s) with
  | (a, b, c, d) => wordHexLE a ++ wordHexLE b ++ wordHexLE c ++ wordHexLE d

/-! ### Canonical request serialization (`json.dumps(..., sort_keys=True)`)
used by `_generate_cache_key`. Keys of every object are emitted in sorted
order, exactly as `sort_keys=True` produces them; the separators are the
`json.dumps` defaults `", "` and `": "`. -/

/-- JSON string escaping as `json.dumps` performs it on the ASCII values in
scope: backslash and double quote. -/
def jsonEscapeChar (c : Char) : String :=
  if c = Char.ofNat 34 then "\\\""
  else if c = Char.ofNat 92 then "\\\\"
  else String.singleton c

/-- JSON string literal. -/
def jsonStr (s : String) : String :=
  "\"" ++ String.join (s.toList.map jsonEscapeChar) ++ "\""

/-- JSON of an optional string (`null` for Python `None`). -/
def jsonOptStr : Option String → String
  | Option.none => "null"
  | Option.some s => jsonStr s

/-- JSON of an optional integer. -/
def jsonOptNat : Option Nat → String
  | Option.none => "null"
  | Option.some n => toString n

/-- JSON boolean. -/
def jsonBool (b : Bool) : String := if b then "true" else "false"

/-- JSON array. -/
def jsonArr (xs : List String) : String :=
  "[" ++ String.intercalate (", ") xs ++ "]"

/-- JSON of a scalar value. -/
def jsonOfScalar : PyScalar → String
  | PyScalar.s v => jsonStr v
  | PyScalar.i v => toString v
  | PyScalar.none => "null"

/-- Insert into an association list sorted by key. -/
def insertSortedKV (p : String × PyScalar) :
    List (String × PyScalar) → List (String × PyScalar)
  | [] => [p]
  | q :: rest => if p.1 ≤ q.1 then p :: q :: rest else q :: insertSortedKV p rest

/-- Sort an association list by key (what `sort_keys=True` does to a dict). -/
def sortByKey (l : List (String × PyScalar)) : List (String × PyScalar) :=
  l.foldr insertSortedKV []

/-- JSON of a filter value (`sort_keys=True` sorts dict keys). -/
def jsonOfPyValue : PyValue → String
  | PyValue.s v => jsonStr v
  | PyValue.i v => toString v
  | PyValue.list vs => jsonArr (vs.map jsonOfScalar)
  | PyValue.dict kvs =>
      "\x7b" ++ String.intercalate (", ")
        ((sortByKey kvs).map (fun kv => jsonStr kv.1 ++ ": " ++ jsonOfScalar kv.2))
        ++ "\x7d"
  | PyValue.none => "null"

/-- Sorted-key JSON of a `PivotField` dict. -/
def jsonOfField (f : PivotField) : String :=
  "\x7b\"dataType\": " ++ jsonStr f.dataType
    ++ ", \"format\": " ++ jsonOptStr f.format
    ++ ", \"id\": " ++ jsonStr f.id
    ++ ", \"name\": " ++ jsonStr f.name ++ "\x7d"

/-- Sorted-key JSON of a `PivotValueField` dict. -/
def jsonOfValueField (v : PivotValueField) : String :=
  "\x7b\"aggregation\": " ++ jsonStr v.aggregation
    ++ ", \"displayName\": " ++ jsonOptStr v.displayName
    ++ ", \"field\": " ++ jsonOfField v.field
    ++ ", \"format\": " ++ jsonOptStr v.format ++ "\x7d"

/-- Sorted-key JSON of a `PivotFilter` dict. -/
def jsonOfFilter (f : PivotFilter) : String :=
  "\x7b\"enabled\": " ++ jsonBool f.enabled
    ++ ", \"field\": " ++ jsonOfField f.field
    ++ ", \"operator\": " ++ jsonStr f.operator
    ++ ", \"value\": " ++ jsonOfPyValue f.value ++ "\x7d"

/-- Sorted-key JSON of `configuration.dict()`. -/
def jsonOfConfig (c : PivotConfiguration) : String :=
  "\x7b\"columns\": " ++ jsonArr (c.columns.map jsonOfField)
    ++ ", \"filters\": " ++ jsonArr (c.filters.map jsonOfFilter)
    ++ ", \"maxColumns\": " ++ jsonOptNat c.maxColumns
    ++ ", \"maxRows\": " ++ jsonOptNat c.maxRows
    ++ ", \"rows\": " ++ jsonArr (c.rows.map jsonOfField)
    ++ ", \"showGrandTotals\": " ++ jsonBool c.showGrandTotals
    ++ ", \"showSubtotals\": " ++ jsonBool c.showSubtotals
    ++ ", \"values\": " ++ jsonArr (c.values.map jsonOfValueField) ++ "\x7d"

/-- JSON of the `expandedPaths` list of lists, in list order (a JSON array
is ordered; `sort_keys` only affects object keys). -/
def jsonOfPaths (paths : List (List String)) : String :=
  jsonArr (paths.map (fun p => jsonArr (p.map jsonStr)))

/-- The exact string `json.dumps(\x7b'dataset': ..., 'configuration':
request.configuration.dict(), 'expandedPaths': request.expandedPaths\x7d,
sort_keys=True)` computed by `_generate_cache_key`. Note that `page` and
`cacheKey` are not serialized. -/
def requestJson (r : PivotRequest) : String :=
  "\x7b\"configuration\": " ++ jsonOfConfig r.configuration
    ++ ", \"dataset\": " ++ jsonStr r.dataset
    ++ ", \"expandedPaths\": " ++ jsonOfPaths r.expandedPaths ++ "\x7d"

/-- Mirror of `_generate_cache_key`. -/
def _generate_cache_key (r : PivotRequest) : String :=
  md5hex (requestJson r)

/-! ### Query compiler (`_map_aggregation`, `_build_filter_clause`,
`_build_pivot_query`) -/

/-- Mirror of `_map_aggregation`: the early return for `countDistinct`
(whose closing parenthesis the source comments it will close in usage),
then `mapping.get(aggregation, 'COUNT')`. -/
def _map_aggregation (aggregation : String) : String :=
  if aggregation = "countDistinct" then "COUNT(DISTINCT"
  else if aggregation = "sum" then "SUM"
  else if aggregation = "count" then "COUNT"
  else if aggregation = "avg" then "AVG"
  else if aggregation = "min" then "MIN"
  else if aggregation = "max" then "MAX"
  else "COUNT"

/-- Mirror of `_build_filter_clause`. Each branch is the f-string of the
source; when an `elif` guard `isinstance(...)` fails, control falls through
the remaining `elif` arms (whose operator tests all fail) to `return ""`. -/
def _build_filter_clause (filter_item : PivotFilter) : String :=
  let field_name := "\"" ++ filter_item.field.id ++ "\""
  let op := filter_item.operator
  let value := filter_item.value
  if op = "equals" then field_name ++ " = \x27" ++ pyStr value ++ "\x27"
  else if op = "notEquals" then field_name ++ " != \x27" ++ pyStr value ++ "\x27"
  else if op = "contains" then field_name ++ " LIKE \x27%" ++ pyStr value ++ "%\x27"
  else if op = "notContains" then field_name ++ " NOT LIKE \x27%" ++ pyStr value ++ "%\x27"
  else if op = "greaterThan" then field_name ++ " > " ++ pyStr value
  else if op = "lessThan" then field_name ++ " < " ++ pyStr value
  else if op = "greaterThanOrEqual" then field_name ++ " >= " ++ pyStr value
  else if op = "lessThanOrEqual" then field_name ++ " <= " ++ pyStr value
  else if op = "in" then
    match value with
    | PyValue.list vs =>
        field_name ++ " IN (\x27"
          ++ String.intercalate ("\x27, \x27") (vs.map pyScalarStr) ++ "\x27)"
    | _ => ""
  else if op = "notIn" then
    match value with
    | PyValue.list vs =>
        field_name ++ " NOT IN (\x27"
          ++ String.intercalate ("\x27, \x27") (vs.map pyScalarStr) ++ "\x27)"
    | _ => ""
  else if op = "between" then
    match value with
    | PyValue.dict kvs =>
        field_name ++ " BETWEEN " ++ pyScalarStr (dictGet kvs ("min"))
          ++ " AND " ++ pyScalarStr (dictGet kvs ("max"))
    | _ => ""
  else if op = "isEmpty" then
    field_name ++ " IS NULL OR " ++ field_name ++ " = \x27\x27"
  else if op = "isNotEmpty" then
    field_name ++ " IS NOT NULL AND " ++ field_name ++ " != \x27\x27"
  else ""

/-- The `query_parts` list of `_build_pivot_query`: the base relation, then
`WHERE <clauses joined with ' AND '>` when some enabled filter compiled to a
non-empty clause. No clause is parenthesized. -/
def queryParts (table_name : String) (config : PivotConfiguration) : List String :=
  let base := ["FROM " ++ table_name]
  if config.filters.isEmpty then base
  else
    let where_clauses :=
      ((config.filters.filter (fun f => f.enabled)).map _build_filter_clause).filter
        (fun c => c ≠ "")
    if where_clauses.isEmpty then base
    else base ++ ["WHERE " ++ String.intercalate (" AND ") where_clauses]

/-- Python `value_field.displayName or value_field.field.name` (an empty
display name is falsy). -/
def aliasOf (v : PivotValueField) : String :=
  match v.displayName with
  | Option.some s => if s = "" then v.field.name else s
  | Option.none => v.field.name

/-- Aggregation expression of the PIVOT branch:
`f'\x7bagg_func\x7d(\x7bfield_name\x7d) AS \x7balias\x7d'`. -/
def aggExprPivot (v : PivotValueField) : String :=
  _map_aggregation v.aggregation ++ "(\"" ++ v.field.id ++ "\") AS " ++ aliasOf v

/-- Aggregation expression of the plain-aggregation branch:
`f'\x7bagg_func\x7d(\x7bfield_name\x7d) AS "\x7balias\x7d"'`. -/
def aggExprSelect (v : PivotValueField) : String :=
  _map_aggregation v.aggregation ++ "(\"" ++ v.field.id ++ "\") AS \""
    ++ aliasOf v ++ "\""

/-- Mirror of `_build_pivot_query`. The truthiness tests of the source
(`if config.columns:` etc.) are non-emptiness tests; `if config.maxRows:`
is falsy for both `None` and `0`. -/
def _build_pivot_query (table_name : String) (config : PivotConfiguration) :
    String :=
  let query_parts := queryParts table_name config
  let q :=
    if config.columns.isEmpty = false then
      let pivot_columns := config.columns.map (fun col => "\"" ++ col.id ++ "\"")
      let using_clause :=
        if config.values.isEmpty = false then
          "USING " ++ String.intercalate (", ") (config.values.map aggExprPivot)
        else "USING count(*)"
      let group_by_clause :=
        if config.rows.isEmpty = false then
          "GROUP BY " ++ String.intercalate (", ")
            (config.rows.map (fun row => "\"" ++ row.id ++ "\""))
        else ""
      let base_query := "SELECT * " ++ String.intercalate (" ") query_parts
      "\n            PIVOT (" ++ base_query ++ ")\n            ON "
        ++ String.intercalate (", ") pivot_columns
        ++ "\n            " ++ using_clause
        ++ "\n            " ++ group_by_clause ++ "\n            "
    else
      if config.values.isEmpty = false then
        let select_parts :=
          (config.rows.map (fun row => "\"" ++ row.id ++ "\""))
            ++ config.values.map aggExprSelect
        let select_clause := "SELECT " ++ String.intercalate (", ") select_parts
        let group_by_clause :=
          if config.rows.isEmpty = false then
            "GROUP BY " ++ String.intercalate (", ")
              (config.rows.map (fun row => "\"" ++ row.id ++ "\""))
          else ""
        select_clause ++ " " ++ String.intercalate (" ") query_parts ++ " "
          ++ group_by_clause
      else
        "SELECT * " ++ String.intercalate (" ") query_parts
  match config.maxRows with
  | Option.some n => if n ≠ 0 then q ++ " LIMIT " ++ toString n else q
  | Option.none => q

/-! ### Materializer, pipeline, drill, sweep -/

/-- The flat result set returned by `conn.execute(query).fetchdf()`: column
labels and rows of values, each row aligned with the columns. -/
structure DataFrame where
  columns : List String
  rows : List (List PyValue)
deriving DecidableEq

/-- Mirror of `_convert_to_pivot_structure`. The `config` parameter is in
the source signature but the body never reads it: every cell is emitted
with `type="data"`, no row or column is appended, `rowHeaders` stays empty
and no `maxColumns` truncation happens. -/
def _convert_to_pivot_structure (df : DataFrame) (config : PivotConfiguration) :
    PivotStructure :=
  let matrix := df.rows.map (fun row => row.map (fun value =>
    ({ value := value,
       formattedValue := match value with
         | PyValue.none => ""
         | v => pyStr v,
       type := "data" } : PivotCell)))
  let column_headers := [df.columns.map (fun col_name =>
    ({ label := col_name, level := 0, span := 1, path := [col_name] } :
      PivotHeader))]
  { matrix := matrix,
    rowHeaders := [],
    columnHeaders := column_headers,
    rowCount := matrix.length,
    columnCount := match matrix with | [] => 0 | r :: _ => r.length,
    totalRows := matrix.length,
    totalColumns := match matrix with | [] => 0 | r :: _ => r.length }

/-- Mirror of `compute_pivot`, with the engine call as the oracle `execQ`
and `datetime.now()` as `now`. On an engine exception the handler raises
`HTTPException(500, "Pivot computation failed: ...")` without touching the
cache; on success the result is cached under the generated key and the
response carries that key in its metadata. -/
def compute_pivot (execQ : String → Except String DataFrame) (now : Nat)
    (cache : Cache) (table_name : String) (request : PivotRequest) :
    Except String PivotResponse × Cache :=
  let pivot_query := _build_pivot_query table_name request.configuration
  match execQ pivot_query with
  | Except.error e => (Except.error ("Pivot computation failed: " ++ e), cache)
  | Except.ok result =>
      let struct := _convert_to_pivot_structure result request.configuration
      let cache_key := _generate_cache_key request
      (Except.ok
        { struct := struct,
          metadata :=
            { totalDataRows := result.rows.length,
              computationTime := 0,
              cacheKey := cache_key,
              timestamp := now } },
       dictSet cache cache_key
         { struct := struct, timestamp := now, request := request })

/-- The `expandedPaths` update performed by the `drill_down` endpoint:
append on expand unless present, `list.remove` on collapse when present. -/
def updateExpandedPaths (action : String) (path : List String)
    (paths : List (List String)) : List (List String) :=
  if action = "expand" then
    if path ∈ paths then paths else paths ++ [path]
  else
    if path ∈ paths then paths.erase path else paths

/-- The request obtained by the in-place mutation of the cached original
request performed by `drill_down`. -/
def drillMutatedRequest (entry : CacheEntry) (dreq : PivotDrillRequest) :
    PivotRequest :=
  { entry.request with
      expandedPaths :=
        updateExpandedPaths dreq.action dreq.path entry.request.expandedPaths }

/-- Mirror of the `drill_down` endpoint body. In Python,
`original_request = cached_data['request']` aliases the object stored in the
cache, so mutating its `expandedPaths` rewrites the cached entry in place;
the embedding makes that explicit by updating the entry under the original
key before re-running `compute_pivot` on the mutated request. -/
def drill_down (execQ : String → Except String DataFrame) (now : Nat)
    (cache : Cache) (table_name : String) (request : PivotDrillRequest) :
    Except String PivotResponse × Cache :=
  match dictFind cache request.cacheKey with
  | Option.none => (Except.error ("Cache key not found"), cache)
  | Option.some cached_data =>
      let mutated := drillMutatedRequest cached_data request
      let cache2 :=
        dictSet cache request.cacheKey { cached_data with request := mutated }
      compute_pivot execQ now cache2 table_name mutated

/-- `CACHE_TTL` with the default `CACHE_TTL_MINUTES=30`, in seconds. -/
def CACHE_TTL : Nat := 30 * 60

/-- `MAX_CACHE_SIZE` with its default `100`. The constant is defined by the
source but never consulted by any code path. -/
def MAX_CACHE_SIZE : Nat := 100

/-- One iteration of the `cleanup_cache` background loop: delete exactly the
entries older than `CACHE_TTL`; entry count is never considered. -/
def cleanup_cache_sweep (now : Nat) (cache : Cache) : Cache :=
  cache.filter (fun p => ¬ (now - p.2.timestamp > CACHE_TTL))

/-! ### Auxiliary observation functions and concrete fixtures -/

/-- Number of occurrences of a character in a string. -/
def charCount (s : String) (c : Char) : Nat :=
  (s.toList.filter (fun x => x = c)).length

/-- A string has as many opening as closing parentheses (a necessary
condition for balanced parentheses). -/
def parenBalanced (s : String) : Bool :=
  charCount s (Char.ofNat 40) == charCount s (Char.ofNat 41)

/-- The response of a non-raising pipeline run. -/
def okResponse : Except String PivotResponse → Option PivotResponse
  | Except.ok r => Option.some r
  | Except.error _ => Option.none

def fRegion : PivotField := { id := "region", name := "Region", dataType := "string" }

def fRevenue : PivotField := { id := "revenue", name := "Revenue", dataType := "number" }

def fG : PivotField := { id := "g", name := "G", dataType := "string" }

def fF : PivotField := { id := "f", name := "F", dataType := "string" }

/-- Configuration with a single `countDistinct` measure and no column pivot. -/
def cfgCD : PivotConfiguration :=
  { rows := [fRegion], columns := [],
    values := [{ field := fRevenue, aggregation := "countDistinct" }] }

/-- Same configuration with `sum` instead. -/
def cfgSum : PivotConfiguration :=
  { cfgCD with values := [{ field := fRevenue, aggregation := "sum" }] }

/-- `countDistinct` measure under a column pivot. -/
def cfgPivotCD : PivotConfiguration :=
  { rows := [fRegion], columns := [fG],
    values := [{ field := fRevenue, aggregation := "countDistinct" }] }

/-- Empty configuration. -/
def cfgEmpty : PivotConfiguration := { rows := [], columns := [], values := [] }

/-- An `equals` filter and an `isEmpty` filter together. -/
def cfgTwoF : PivotConfiguration :=
  { cfgEmpty with
      filters := [{ field := fG, operator := "equals", value := PyValue.s "a" },
                  { field := fF, operator := "isEmpty", value := PyValue.none }] }

/-- A two-column, one-row engine result. -/
def dfQ : DataFrame :=
  { columns := ["Q1", "Q2"], rows := [[PyValue.i 100, PyValue.i 150]] }

/-- Engine oracle that always succeeds with `dfQ`. -/
def execOkQ : String → Except String DataFrame := fun _ => Except.ok dfQ

/-- Engine oracle that always raises. -/
def execBoom : String → Except String DataFrame := fun _ => Except.error ("boom")

/-- A minimal request. -/
def reqBase : PivotRequest := { dataset := "d", configuration := cfgEmpty }

/-- The minimal request with a column cap of 1. -/
def reqMax1 : PivotRequest :=
  { dataset := "d", configuration := { cfgEmpty with maxColumns := Option.some 1 } }

/-- A materialized structure for cache fixtures. -/
def structure0 : PivotStructure := _convert_to_pivot_structure dfQ cfgEmpty

/-- A cache entry holding `reqBase`. -/
def entry0 : CacheEntry := { struct := structure0, timestamp := 0, request := reqBase }

/-- A drill request expanding `["US"]` against key `key0`. -/
def dreqExp : PivotDrillRequest :=
  { cacheKey := "key0", path := ["US"], action := "expand" }

/-- A cache already holding `MAX_CACHE_SIZE` entries under distinct keys. -/
def cache100 : Cache := (List.range 100).map (fun i => ("k" ++ toString i, entry0))

/-- Requests identical except for the order of their `expandedPaths` lists. -/
def reqPathsAB : PivotRequest :=
  { dataset := "d", configuration := cfgEmpty, expandedPaths := [["A"], ["B"]] }

def reqPathsBA : PivotRequest :=
  { dataset := "d", configuration := cfgEmpty, expandedPaths := [["B"], ["A"]] }

/-- Empty configuration with grand totals requested. -/
def cfgGT : PivotConfiguration := { cfgEmpty with showGrandTotals := true }

/-! ### Helper lemmas about the cache dict and the drill path update -/

theorem dictFind_map_set (c : Cache) (k : String) (v : CacheEntry)
    (h : dictHasKey c k = true) :
    dictFind (c.map (fun p => if p.1 = k then (k, v) else p)) k = Option.some v := by
  induction c with
  | nil => simp [dictHasKey] at h
  | cons p rest ih =>
      by_cases hp : p.1 = k
      · simp [dictFind, hp]
      · simp [dictHasKey, hp] at h
        simp [dictFind, hp, ih h]

theorem dictFind_append_new (c : Cache) (k : String) (v : CacheEntry)
    (h : dictHasKey c k = false) :
    dictFind (c ++ [(k, v)]) k = Option.some v := by
  induction c with
  | nil => simp [dictFind]
  | cons p rest ih =>
      simp [dictHasKey] at h
      simp [dictFind, h.1, ih h.2]

/-- Looking up the key just written returns the value written. -/
theorem dictFind_dictSet_self (c : Cache) (k : String) (v : CacheEntry) :
    dictFind (dictSet c k v) k = Option.some v := by
  unfold dictSet
  by_cases h : dictHasKey c k = true
  · rw [if_pos h]; exact dictFind_map_set c k v h
  · rw [if_neg h]
    exact dictFind_append_new c k v (by revert h; cases dictHasKey c k <;> simp)

/-- Overwriting key `k2` in place does not change the binding of `k1`. -/
theorem dictFind_map_set_other (c : Cache) (k1 k2 : String) (v : CacheEntry)
    (h : k2 ≠ k1) :
    dictFind (c.map (fun p => if p.1 = k2 then (k2, v) else p)) k1 =
      dictFind c k1 := by
  induction c with
  | nil => simp [dictFind]
  | cons p rest ih =>
      by_cases hp : p.1 = k2
      · have hp1 : ¬ p.1 = k1 := by rw [hp]; exact h
        simp [dictFind, hp, hp1, h, ih]
      · by_cases hq : p.1 = k1
        · simp [dictFind, hp, hq, Ne.symm h]
        · simp [dictFind, hp, hq, ih]

/-- Appending a binding for key `k2` does not change the binding of `k1`. -/
theorem dictFind_append_other (c : Cache) (k1 k2 : String) (v : CacheEntry)
    (h : k2 ≠ k1) :
    dictFind (c ++ [(k2, v)]) k1 = dictFind c k1 := by
  induction c with
  | nil => simp [dictFind, h]
  | cons p rest ih =>
      by_cases hq : p.1 = k1
      · simp [dictFind, hq]
      · simp [dictFind, hq, ih]

/-- Writing one key does not change the binding of another. -/
theorem dictFind_dictSet_other (c : Cache) (k1 k2 : String) (v : CacheEntry)
    (h : k2 ≠ k1) :
    dictFind (dictSet c k2 v) k1 = dictFind c k1 := by
  unfold dictSet
  by_cases hh : dictHasKey c k2
  · rw [if_pos hh]; exact dictFind_map_set_other c k1 k2 v h
  · rw [if_neg hh]; exact dictFind_append_other c k1 k2 v h

theorem updateExpandedPaths_expand_mem (path : List String)
    (paths : List (List String)) (h : path ∈ paths) :
    updateExpandedPaths ("expand") path paths = paths := by
  simp [updateExpandedPaths, h]

theorem updateExpandedPaths_collapse_not_mem (path : List String)
    (paths : List (List String)) (h : path ∉ paths) :
    updateExpandedPaths ("collapse") path paths = paths := by
  rw [updateExpandedPaths, if_neg (by decide), if_neg h]

theorem mem_updateExpandedPaths_expand (path : List String)
    (paths : List (List String)) :
    path ∈ updateExpandedPaths ("expand") path paths := by
  rw [updateExpandedPaths, if_pos rfl]
  by_cases h : path ∈ paths
  · rw [if_pos h]; exact h
  · rw [if_neg h]; simp

theorem not_mem_updateExpandedPaths_collapse (path : List String)
    (paths : List (List String)) (hnd : paths.Nodup) :
    path ∉ updateExpandedPaths ("collapse") path paths := by
  rw [updateExpandedPaths, if_neg (by decide)]
  by_cases h : path ∈ paths
  · rw [if_pos h]
    intro hmem
    rw [List.Nodup.mem_erase_iff hnd] at hmem
    exact hmem.1 rfl
  · rw [if_neg h]; exact h

/-- Unfolding of `compute_pivot` when the engine raises. -/
theorem compute_pivot_error (execQ : String → Except String DataFrame)
    (now : Nat) (cache : Cache) (table_name : String) (request : PivotRequest)
    (e : String)
    (h : execQ (_build_pivot_query table_name request.configuration) =
      Except.error e) :
    compute_pivot execQ now cache table_name request =
      (Except.error ("Pivot computation failed: " ++ e), cache) := by
  simp only [compute_pivot]
  rw [h]

/-- Unfolding of `compute_pivot` when the engine succeeds. -/
theorem compute_pivot_ok (execQ : String → Except String DataFrame)
    (now : Nat) (cache : Cache) (table_name : String) (request : PivotRequest)
    (df : DataFrame)
    (h : execQ (_build_pivot_query table_name request.configuration) =
      Except.ok df) :
    compute_pivot execQ now cache table_name request =
      (Except.ok
        { struct := _convert_to_pivot_structure df request.configuration,
          metadata :=
            { totalDataRows := df.rows.length,
              computationTime := 0,
              cacheKey := _generate_cache_key request,
              timestamp := now } },
       dictSet cache (_generate_cache_key request)
         { struct := _convert_to_pivot_structure df request.configuration,
           timestamp := now, request := request }) := by
  simp only [compute_pivot]
  rw [h]

/-- Unfolding of `drill_down` on a cache hit. -/
theorem drill_down_hit (execQ : String → Except String DataFrame) (now : Nat)
    (cache : Cache) (table_name : String) (dreq : PivotDrillRequest)
    (entry : CacheEntry) (h : dictFind cache dreq.cacheKey = Option.some entry) :
    drill_down execQ now cache table_name dreq =
      compute_pivot execQ now
        (dictSet cache dreq.cacheKey { entry with request := drillMutatedRequest entry dreq })
        table_name (drillMutatedRequest entry dreq) := by
  unfold drill_down
  rw [h]

/-! ### Additional fixtures for the claims -/

/-- An `in` filter whose value is a scalar, not a list. -/
def inFilterBad : PivotFilter :=
  { field := fRegion, operator := "in", value := PyValue.s "US" }

def cfgInBad : PivotConfiguration := { cfgEmpty with filters := [inFilterBad] }

def reqInBad : PivotRequest := { dataset := "d", configuration := cfgInBad }

/-- A `notIn` filter whose value is an integer. -/
def notInFilterBad : PivotFilter :=
  { field := fRegion, operator := "notIn", value := PyValue.i 5 }

/-- Requests identical in every serialized field, differing in `page` and
`cacheKey` only. -/
def reqW1 : PivotRequest :=
  { dataset := "d", configuration := cfgEmpty, expandedPaths := [["A"]] }

def reqW2 : PivotRequest :=
  { dataset := "d", configuration := cfgEmpty, expandedPaths := [["A"]],
    page := Option.some [("offset", 1)], cacheKey := Option.some ("zzz") }

/-- A one-entry cache for the drill fixtures. -/
def cacheW : Cache := [("key0", entry0)]

def filtEqG : PivotFilter :=
  { field := fG, operator := "equals", value := PyValue.s "a" }

def filtIsEmptyF : PivotFilter :=
  { field := fF, operator := "isEmpty", value := PyValue.none }

/-! ### Intermediate lemmas for the claims -/

/-- Compiling a single filter whose clause is empty yields no WHERE part. -/
theorem queryParts_single_empty (table : String) (cfg : PivotConfiguration)
    (filt : PivotFilter) (h : _build_filter_clause filt = "") :
    queryParts table { cfg with filters := [filt] } = ["FROM " ++ table] := by
  cases hf : filt.enabled <;> simp [queryParts, h, hf]

/-- No filters: no WHERE part. -/
theorem queryParts_no_filters (table : String) (cfg : PivotConfiguration) :
    queryParts table { cfg with filters := [] } = ["FROM " ++ table] := rfl

/-! ### Claim theorems -/

set_option maxRecDepth 100000

/-- C1: for a `countDistinct` measure, `_map_aggregation` returns the
two-token prefix `COUNT(DISTINCT` and the compiled query renders the
measure as `COUNT(DISTINCT("<field>") AS <alias>` — with an unbalanced
parenthesis — in both the plain-aggregation and the PIVOT branch, while
every other aggregation is a single function token producing a balanced
rendering. The claim that the rendering is the balanced
`COUNT(DISTINCT <field>)` fails on the code. -/
theorem countDistinct_rendering_unbalanced :
    _map_aggregation ("countDistinct") = "COUNT(DISTINCT" ∧
    ([("sum" : String), "count", "avg", "min", "max"].all
      (fun a => charCount (_map_aggregation a) (Char.ofNat 40) == 0)) = true ∧
    _build_pivot_query ("sales") cfgCD =
      "SELECT \"region\", COUNT(DISTINCT(\"revenue\") AS \"Revenue\" FROM sales GROUP BY \"region\"" ∧
    parenBalanced (_build_pivot_query ("sales") cfgCD) = false ∧
    parenBalanced (_build_pivot_query ("sales") cfgPivotCD) = false ∧
    _build_pivot_query ("sales") cfgSum =
      "SELECT \"region\", SUM(\"revenue\") AS \"Revenue\" FROM sales GROUP BY \"region\"" ∧
    parenBalanced (_build_pivot_query ("sales") cfgSum) = true := by
  decide

/-- C2: with `maxColumns = 1` and an executed result of 2 leaf columns, the
materialized response keeps both columns and reports `hasMore = false`:
no `maxColumns` truncation is applied anywhere. -/
theorem maxColumns_truncation_not_applied :
    reqMax1.configuration.maxColumns = Option.some 1 ∧
    (okResponse (compute_pivot execOkQ 0 [] ("t") reqMax1).1).map
        (fun r => (r.hasMore, r.struct.columnCount,
          r.struct.columnHeaders.map List.length)) =
      Option.some (false, 2, [2]) := by
  decide

/-- C3: whatever the configuration requests — grand totals included — the
materializer emits exactly one matrix row per result row and one header per
result column, and every cell is tagged `type = "data"`; no `grandTotal`
row, column or cell is ever produced. -/
theorem grandTotals_not_materialized (df : DataFrame) (config : PivotConfiguration)
    (h : config.showGrandTotals = true) :
    (_convert_to_pivot_structure df config).matrix.length = df.rows.length ∧
    (_convert_to_pivot_structure df config).columnHeaders.map List.length =
      [df.columns.length] ∧
    ∀ rowL ∈ (_convert_to_pivot_structure df config).matrix, ∀ cell ∈ rowL,
      cell.type = "data" := by
  refine ⟨by simp [_convert_to_pivot_structure],
          by simp [_convert_to_pivot_structure], ?_⟩
  intro rowL hrow cell hcell
  simp [_convert_to_pivot_structure] at hrow
  obtain ⟨row, hr, rfl⟩ := hrow
  simp at hcell
  obtain ⟨v, hv, rfl⟩ := hcell
  rfl

theorem grandTotals_not_materialized_witness :
    (_convert_to_pivot_structure dfQ cfgGT).matrix.length = dfQ.rows.length ∧
    (_convert_to_pivot_structure dfQ cfgGT).columnHeaders.map List.length =
      [dfQ.columns.length] ∧
    ∀ rowL ∈ (_convert_to_pivot_structure dfQ cfgGT).matrix, ∀ cell ∈ rowL,
      cell.type = "data" :=
  grandTotals_not_materialized dfQ cfgGT rfl

/-- C4 counterexample: an enabled `in` filter with a non-list value does not
fail — `_build_filter_clause` totally returns the empty string, the compiled
query is identical to the one with the filter absent, and the pipeline
completes successfully. -/
theorem in_nonlist_not_an_error :
    inFilterBad.operator = "in" ∧
    inFilterBad.value = PyValue.s ("US") ∧
    inFilterBad.enabled = true ∧
    _build_filter_clause inFilterBad = "" ∧
    _build_pivot_query ("t") cfgInBad = _build_pivot_query ("t") cfgEmpty ∧
    (okResponse (compute_pivot execOkQ 0 [] ("t") reqInBad).1).isSome = true := by
  decide

/-- C4 amended: for an enabled `in`/`notIn` filter whose value is not a
list, filter compilation returns the empty fragment and the query compiler
silently drops the filter from the compiled query; no error is raised. -/
theorem in_nonlist_dropped_silently (filt : PivotFilter)
    (cfg : PivotConfiguration) (table : String)
    (hop : filt.operator = "in" ∨ filt.operator = "notIn")
    (hv : ∀ vs, filt.value ≠ PyValue.list vs) :
    _build_filter_clause filt = "" ∧
    _build_pivot_query table { cfg with filters := [filt] } =
      _build_pivot_query table { cfg with filters := [] } := by
  have hclause : _build_filter_clause filt = "" := by
    obtain ⟨f, op, v, en⟩ := filt
    dsimp only at hop hv
    rcases hop with h | h <;> subst h <;> cases v <;>
      first
        | rfl
        | exact absurd rfl (hv _)
  refine ⟨hclause, ?_⟩
  simp only [_build_pivot_query, queryParts_single_empty table cfg filt hclause,
    queryParts_no_filters table cfg]

theorem in_nonlist_dropped_silently_witness :
    _build_filter_clause notInFilterBad = "" ∧
    _build_pivot_query ("t") { cfgEmpty with filters := [notInFilterBad] } =
      _build_pivot_query ("t") { cfgEmpty with filters := [] } :=
  in_nonlist_dropped_silently notInFilterBad cfgEmpty ("t") (Or.inr rfl)
    (fun vs h => by simp [notInFilterBad] at h)

/-- C5 counterexample: two requests with the same dataset, the same
configuration, and the same `expandedPaths` as sets (a permutation) receive
different fingerprints, because `expandedPaths` is serialized as an ordered
list and only dict keys are sorted. -/
theorem fingerprint_depends_on_path_order :
    reqPathsAB.dataset = reqPathsBA.dataset ∧
    reqPathsAB.configuration = reqPathsBA.configuration ∧
    List.Perm reqPathsAB.expandedPaths reqPathsBA.expandedPaths ∧
    _generate_cache_key reqPathsAB ≠ _generate_cache_key reqPathsBA := by
  refine ⟨rfl, rfl, ?_, by decide⟩
  exact List.Perm.swap _ _ _

/-- C5 amended: the fingerprint depends only on dataset, configuration and
the `expandedPaths` list: requests agreeing on those three (including the
order of the `expandedPaths` list) get equal fingerprints, whatever their
`page` and `cacheKey` fields; equality of `expandedPaths` as sets does not
suffice. -/
theorem fingerprint_stable_for_identical_lists (r1 r2 : PivotRequest)
    (hd : r1.dataset = r2.dataset) (hc : r1.configuration = r2.configuration)
    (hp : r1.expandedPaths = r2.expandedPaths) :
    _generate_cache_key r1 = _generate_cache_key r2 := by
  unfold _generate_cache_key requestJson
  rw [hd, hc, hp]

theorem fingerprint_stable_for_identical_lists_witness :
    _generate_cache_key reqW1 = _generate_cache_key reqW2 :=
  fingerprint_stable_for_identical_lists reqW1 reqW2 rfl rfl rfl

/-- C6: inserting into a cache already holding `MAX_CACHE_SIZE` entries
does not evict anything: the successful compute leaves the cache with
`MAX_CACHE_SIZE + 1` entries, and the TTL sweep keeps all of them while
they are fresh. The claimed capacity invariant fails on the code (the
constant is defined but never consulted). -/
theorem cache_insert_exceeds_capacity :
    cache100.length = MAX_CACHE_SIZE ∧
    (compute_pivot execOkQ 0 cache100 ("t") reqBase).2.length =
      MAX_CACHE_SIZE + 1 ∧
    (cleanup_cache_sweep 0 ((compute_pivot execOkQ 0 cache100 ("t") reqBase).2)).length =
      MAX_CACHE_SIZE + 1 := by
  decide

/-- C7: if the engine raises, `compute_pivot` returns the wrapped error and
the cache exactly as it was; when the engine succeeds, the new cache is the
old one with the single entry for the request inserted after
materialization. -/
theorem failure_leaves_cache_unchanged (execQ : String → Except String DataFrame)
    (now : Nat) (cache : Cache) (table_name : String) (request : PivotRequest) :
    (∀ e, execQ (_build_pivot_query table_name request.configuration) =
        Except.error e →
      compute_pivot execQ now cache table_name request =
        (Except.error ("Pivot computation failed: " ++ e), cache)) ∧
    (∀ df, execQ (_build_pivot_query table_name request.configuration) =
        Except.ok df →
      (compute_pivot execQ now cache table_name request).2 =
        dictSet cache (_generate_cache_key request)
          { struct := _convert_to_pivot_structure df request.configuration,
            timestamp := now, request := request }) :=
  ⟨fun e h => compute_pivot_error execQ now cache table_name request e h,
   fun df h => by rw [compute_pivot_ok execQ now cache table_name request df h]⟩

theorem failure_leaves_cache_unchanged_witness :
    compute_pivot execBoom 0 [] ("t") reqBase =
      (Except.error ("Pivot computation failed: " ++ "boom"), ([] : Cache)) ∧
    (compute_pivot execOkQ 0 [] ("t") reqBase).2 =
      dictSet [] (_generate_cache_key reqBase)
        { struct := _convert_to_pivot_structure dfQ reqBase.configuration,
          timestamp := 0, request := reqBase } :=
  ⟨(failure_leaves_cache_unchanged execBoom 0 [] ("t") reqBase).1 ("boom") rfl,
   (failure_leaves_cache_unchanged execOkQ 0 [] ("t") reqBase).2 dfQ rfl⟩

/-- C8: the drill path update has idempotent set semantics — expanding an
already-present path and collapsing an absent path both leave
`expandedPaths` unchanged — and on any cache hit the drill proceeds to
recompute rather than erroring, whatever the prior expansion state. -/
theorem drill_path_update_idempotent (path : List String)
    (paths : List (List String)) :
    (path ∈ paths → updateExpandedPaths ("expand") path paths = paths) ∧
    (path ∉ paths → updateExpandedPaths ("collapse") path paths = paths) ∧
    (∀ execQ now cache table_name dreq entry,
        dictFind cache dreq.cacheKey = Option.some entry →
        drill_down execQ now cache table_name dreq =
          compute_pivot execQ now
            (dictSet cache dreq.cacheKey
              { entry with request := drillMutatedRequest entry dreq })
            table_name (drillMutatedRequest entry dreq)) :=
  ⟨updateExpandedPaths_expand_mem path paths,
   updateExpandedPaths_collapse_not_mem path paths,
   fun execQ now cache table_name dreq entry h =>
     drill_down_hit execQ now cache table_name dreq entry h⟩

theorem drill_path_update_idempotent_witness :
    updateExpandedPaths ("expand") (["US"]) ([["US"]]) = [["US"]] ∧
    updateExpandedPaths ("collapse") (["EU"]) ([["US"]]) = [["US"]] :=
  ⟨(drill_path_update_idempotent (["US"]) ([["US"]])).1 (by decide),
   (drill_path_update_idempotent (["EU"]) ([["US"]])).2.1 (by decide)⟩

/-- C9: after a successful drill, the entry still stored under the original
cache key holds the mutated request — `expandedPaths` now contains the
expanded path (and, for a collapse of a duplicate-free list, no longer
contains it) — and, at the concrete fixture, the mutated request hashes to
a different key than the one it is stored under. -/
theorem drill_mutates_cached_entry (execQ : String → Except String DataFrame)
    (now : Nat) (cache : Cache) (table_name : String)
    (dreq : PivotDrillRequest) (entry : CacheEntry) (df : DataFrame)
    (hfind : dictFind cache dreq.cacheKey = Option.some entry)
    (hok : execQ (_build_pivot_query table_name
        (drillMutatedRequest entry dreq).configuration) = Except.ok df) :
    (dictFind (drill_down execQ now cache table_name dreq).2 dreq.cacheKey).map
        (fun e => e.request) = Option.some (drillMutatedRequest entry dreq) ∧
    (dreq.action = "expand" →
        dreq.path ∈ (drillMutatedRequest entry dreq).expandedPaths) ∧
    (dreq.action = "collapse" → entry.request.expandedPaths.Nodup →
        dreq.path ∉ (drillMutatedRequest entry dreq).expandedPaths) ∧
    _generate_cache_key (drillMutatedRequest entry0 dreqExp) ≠
      _generate_cache_key entry0.request := by
  refine ⟨?_, ?_, ?_, by decide⟩
  · rw [drill_down_hit execQ now cache table_name dreq entry hfind,
       compute_pivot_ok execQ now
         (dictSet cache dreq.cacheKey
           { entry with request := drillMutatedRequest entry dreq })
         table_name (drillMutatedRequest entry dreq) df hok]
    by_cases hk :
        _generate_cache_key (drillMutatedRequest entry dreq) = dreq.cacheKey
    · rw [hk, dictFind_dictSet_self]; rfl
    · rw [dictFind_dictSet_other _ _ _ _ hk, dictFind_dictSet_self]; rfl
  · intro ha
    dsimp only [drillMutatedRequest]
    rw [ha]
    exact mem_updateExpandedPaths_expand dreq.path entry.request.expandedPaths
  · intro ha hnd
    dsimp only [drillMutatedRequest]
    rw [ha]
    exact not_mem_updateExpandedPaths_collapse dreq.path
      entry.request.expandedPaths hnd

theorem drill_mutates_cached_entry_witness :
    (dictFind (drill_down execOkQ 0 cacheW ("t") dreqExp).2 dreqExp.cacheKey).map
        (fun e => e.request) = Option.some (drillMutatedRequest entry0 dreqExp) :=
  (drill_mutates_cached_entry execOkQ 0 cacheW ("t") dreqExp entry0 dfQ
    (by decide) rfl).1

/-- C10: the compiled `isEmpty` fragment is the unparenthesized disjunction
`"f" IS NULL OR "f" = ''`; enabled filter fragments are joined with
`' AND '` with no parentheses added, so next to another filter the compiled
WHERE text AND-joins that filter directly against the left disjunct. -/
theorem isEmpty_fragment_and_join_unparenthesized :
    (∀ (f : PivotField) (v : PyValue) (en : Bool),
        _build_filter_clause
            { field := f, operator := "isEmpty", value := v, enabled := en } =
          ("\"" ++ f.id ++ "\"") ++ " IS NULL OR " ++ ("\"" ++ f.id ++ "\"")
            ++ " = \x27\x27") ∧
    (∀ (table : String) (cfg : PivotConfiguration) (f1 f2 : PivotFilter),
        f1.enabled = true → f2.enabled = true →
        _build_filter_clause f1 ≠ "" → _build_filter_clause f2 ≠ "" →
        queryParts table { cfg with filters := [f1, f2] } =
          ["FROM " ++ table,
           "WHERE " ++ (_build_filter_clause f1 ++ " AND "
             ++ _build_filter_clause f2)]) ∧
    _build_pivot_query ("t") cfgTwoF =
      "SELECT * FROM t WHERE \"g\" = \x27a\x27 AND \"f\" IS NULL OR \"f\" = \x27\x27" := by
  refine ⟨?_, ?_, by decide⟩
  · intro f v en
    cases v <;> rfl
  · intro table cfg f1 f2 h1 h2 hc1 hc2
    simp [queryParts, h1, h2, hc1, hc2]
    rfl

theorem isEmpty_fragment_and_join_unparenthesized_witness :
    queryParts ("t") { cfgEmpty with filters := [filtEqG, filtIsEmptyF] } =
      ["FROM " ++ "t",
       "WHERE " ++ (_build_filter_clause filtEqG ++ " AND "
         ++ _build_filter_clause filtIsEmptyF)] :=
  (isEmpty_fragment_and_join_unparenthesized).2.1 ("t") cfgEmpty filtEqG
    filtIsEmptyF rfl rfl (by decide) (by decide)
